import Mathlib

/-!
Shallow embedding of the reconciliation engine of `mssqlx`
(`src/mssqlx/clients/smartsheet_io.py`, class `SmartsheetIntegration`),
together with proofs settling the specification claims about it.

Python scalar values that can appear in a snapshot cell (a pandas cell
loaded from the SQL table or from the Smartsheet) are modelled by `Value`;
Python `==`, `str()`, `float()` and `format(x, ".2f")` are modelled by
`pyEq`, `pyStr`, `pyFloat` and `fmt2`.  Missing cells are modelled by
`Value.vnone` (Python `None`).  Python floats are modelled as exact
fractions (`Frac`): no claim exercises binary-float rounding, and every
numeric input in the claims is an exact decimal.

One module-level fact shapes the embedding of the three merge methods:
`smartsheet_io.py` imports only `DataFrame` from pandas and never binds
the name `pd`, yet `merge_smartsheet_inserts` (line 204),
`merge_smartsheet_updates` (line 224) and `merge_sql_updates` (line 290)
each begin with `pd.merge(...)`.  In this module every call to those
methods therefore raises `NameError: name 'pd' is not defined` at its
first statement; that is what the entry-point definitions return.  The
method bodies below the `pd.merge` line are still source code of this
module (and run verbatim in the module's sibling copies `ssint.py` and
`smartsheet_int.py`, which do `import pandas as pd`); they are embedded
as per-fragment definitions, and the `...WithPd` definitions compose
them into the pass the method performs once `pd` is bound. -/

/-- The apostrophe character (`Char.ofNat 39`), used when building and
escaping SQL literals. -/
def sqc : Char := Char.ofNat 39

/-- An exact fraction `num / den`, standing in for a Python float.  All
constructions in this development keep `den` positive. -/
structure Frac where
  num : Int
  den : Nat
  deriving Repr, DecidableEq

/-- Numeric equality of two fractions, by cross-multiplication. -/
def Frac.eqb (a b : Frac) : Bool :=
  a.num * (b.den : Int) == b.num * (a.den : Int)

/-- A loosely-typed Python scalar held in a snapshot cell: `None`, a
string, an int, a float, or a bool. -/
inductive Value where
  | vnone : Value
  | vstr (s : String) : Value
  | vint (n : Int) : Value
  | vfloat (f : Frac) : Value
  | vbool (b : Bool) : Value
  deriving Repr, DecidableEq

/-- The numeric content of a value, when Python treats it as a number for
`==` (ints, floats, and bools, with `True == 1`). -/
def Value.toFrac : Value → Option Frac
  | .vint n => some ⟨n, 1⟩
  | .vfloat f => some f
  | .vbool b => some ⟨if b then 1 else 0, 1⟩
  | _ => none

/-- Python `==` on two scalar values: `None == None` is true, strings
compare by content, numeric kinds (int/float/bool) compare by numeric
value, and any other cross-kind comparison is false. -/
def pyEq (a b : Value) : Bool :=
  match a, b with
  | .vnone, .vnone => true
  | .vstr s, .vstr t => s == t
  | a, b =>
    match a.toFrac, b.toFrac with
    | some x, some y => Frac.eqb x y
    | _, _ => false

/-- Render the integer `n / 10^k` worth of digits (sign `neg`, digit
source `n`) as a plain decimal string with exactly `k` fractional
digits. -/
def decString (neg : Bool) (n : Nat) (k : Nat) : String :=
  let ds := (toString n).data
  let ds := if ds.length ≤ k then List.replicate (k + 1 - ds.length) (Char.ofNat 48) ++ ds else ds
  let ip := ds.take (ds.length - k)
  let fp := ds.drop (ds.length - k)
  String.mk ((if neg then [Char.ofNat 45] else []) ++ ip ++ (if k = 0 then [] else Char.ofNat 46 :: fp))

/-- Python `format(x, ".2f")` on an exact fraction: round to the nearest
hundredth (`round(q * 100) = ⌊(200·num + den) / (2·den)⌋`) and print with
exactly two fractional digits.  (CPython rounds ties on the underlying
binary float; the exact decimal inputs exercised here are never ties.) -/
def fmt2 (a : Frac) : String :=
  let c : Int := (200 * a.num + (a.den : Int)).fdiv (2 * (a.den : Int))
  decString (decide (c < 0)) c.natAbs 2

/-- The smallest number of decimal digits that writes the fraction
exactly, if at most 20 suffice (a Python float always has a finite
decimal form of at most that length for the values exercised here). -/
def decExponent (a : Frac) : Option Nat :=
  (List.range 21).find? (fun k => a.num * ((10 ^ k : Nat) : Int) % (a.den : Int) == 0)

/-- Python `str()` of a float: the shortest plain decimal form, with
`.0` appended for integral floats (`str(12.0) = "12.0"`). -/
def fmtFloat (a : Frac) : String :=
  match decExponent a with
  | some 0 =>
    let n := a.num.fdiv (a.den : Int)
    decString (decide (n < 0)) n.natAbs 0 ++ ".0"
  | some k =>
    let n := (a.num * ((10 ^ k : Nat) : Int)).fdiv (a.den : Int)
    decString (decide (n < 0)) n.natAbs k
  | none => "?"

/-- Python `str()` on a scalar value. -/
def pyStr : Value → String
  | .vnone => "None"
  | .vstr s => s
  | .vint n => toString n
  | .vfloat f => fmtFloat f
  | .vbool b => if b then "True" else "False"

/-- Accumulate decimal digits; `none` on a non-digit. -/
def digitsVal : List Char → Option Nat → Option Nat
  | [], acc => acc
  | c :: cs, acc =>
    match acc with
    | none => none
    | some n => if c.isDigit then digitsVal cs (some (n * 10 + (c.toNat - 48))) else none

/-- Parse a plain decimal numeral (optional sign, digits, optional
fractional part), as Python `float()` accepts for the inputs exercised
here; `none` mirrors `ValueError` on a non-numeric string. -/
def parseDecimal (s : String) : Option Frac :=
  let cs := s.data
  let (neg, cs) :=
    match cs with
    | c :: rest => if c = Char.ofNat 45 then (true, rest) else if c = Char.ofNat 43 then (false, rest) else (false, c :: rest)
    | [] => (false, [])
  let intDigits := cs.takeWhile Char.isDigit
  let rest := cs.dropWhile Char.isDigit
  let core : Option Frac :=
    match rest with
    | [] => if intDigits.isEmpty then none else (digitsVal intDigits (some 0)).map (fun n => ⟨n, 1⟩)
    | c :: frac =>
      if c = Char.ofNat 46 then
        if intDigits.isEmpty ∧ frac.isEmpty then none
        else
          match digitsVal intDigits (some 0), digitsVal frac (some 0) with
          | some i, some f => some ⟨i * (10 ^ frac.length : Nat) + f, 10 ^ frac.length⟩
          | _, _ => none
      else none
  core.map (fun a => if neg then ⟨-a.num, a.den⟩ else a)

/-- Python-exception outcomes of the engine's fallible operations,
tagged by the exception the interpreter raises. -/
inductive PyErr where
  | keyErr (name : String) : PyErr
  | valueErr (s : String) : PyErr
  | typeErr (s : String) : PyErr
  | attributeErr (s : String) : PyErr
  | nameErr (n : String) : PyErr
  deriving Repr, DecidableEq

/-- Python `float()` on a scalar value: numbers and bools convert, a
string is parsed (`ValueError` when non-numeric), `None` raises
`TypeError`. -/
def pyFloat : Value → Except PyErr Frac
  | .vint n => .ok ⟨n, 1⟩
  | .vfloat f => .ok f
  | .vbool b => .ok ⟨if b then 1 else 0, 1⟩
  | .vstr s =>
    match parseDecimal s with
    | some a => .ok a
    | none => .error (.valueErr s)
  | .vnone => .error (.typeErr "float() argument must not be None")

/-- Python `s.replace("'", "''")`: double every single-quote character
(`merge_sql_updates`, line 319 of `smartsheet_io.py`). -/
def escapeQuotes (s : String) : String :=
  String.mk (s.data.foldr (fun c acc => if c = sqc then sqc :: sqc :: acc else c :: acc) [])

deriving instance DecidableEq for Except

/-!
## Engine data model

`Row` models one pandas snapshot row as an association list from column
name to scalar value; a missing cell is `Value.vnone`.  `SSRow` adds the
store-assigned `RowID` that `get_sheet_dataframe` places in the remote
snapshot.  `ColumnConfig` is one entry of the `columns_config` dict
(`type`, optional `sql`, optional `constraint`), and `Integration` holds
the fields of `SmartsheetIntegration` that the merge methods read.
-/

def Row : Type := List (String × Value)

/-- Value of column `c` in a snapshot row (`row[c]` on a pandas row,
with a missing cell materialized as null). -/
def Row.get (r : Row) (c : String) : Value :=
  match r.find? (fun p => p.1 == c) with
  | some p => p.2
  | none => Value.vnone

/-- One remote-snapshot row: the store row identifier (the `RowID`
column added by `get_sheet_dataframe`) plus its cells. -/
structure SSRow where
  rowId : Int
  cells : Row

/-- One `columns_config` entry: the `type` action string, the optional
`sql` name override, and the optional `constraint` tag. -/
structure ColumnConfig where
  type : String
  sql : Option String := none
  constraint : Option String := none
  deriving Repr, DecidableEq

/-- The result of the column-policy loop of `SmartsheetIntegration.__init__`
(lines 137-147): the recorded primary-key pair and the CHECKBOX/CURRENCY
column lists. -/
structure InitState where
  primaryKeySS : Option String
  primaryKeySql : Option String
  checkboxColumns : List String
  currencyColumns : List String
  deriving Repr, DecidableEq

/-- One iteration of the `__init__` loop over `columns_config.items()`. -/
def initStep (st : InitState) (e : String × ColumnConfig) : InitState :=
  if e.2.type == "PRIMARY KEY" then
    { st with primaryKeySS := some e.1, primaryKeySql := some (e.2.sql.getD e.1) }
  else if e.2.constraint == some "CHECKBOX" then
    { st with checkboxColumns := st.checkboxColumns ++ [e.1] }
  else if e.2.constraint == some "CURRENCY" then
    { st with currencyColumns := st.currencyColumns ++ [e.1] }
  else st

/-- The column-policy part of `SmartsheetIntegration.__init__`: fold the
loop body over the configuration entries, starting from no primary key
and empty constraint lists. -/
def initColumns (cfg : List (String × ColumnConfig)) : InitState :=
  cfg.foldl initStep ⟨none, none, [], []⟩

/-- The same construction step with its exception behaviour made
explicit: the loop body contains no `raise` and reads only keys the
entry record carries, so it returns normally on every configuration. -/
def initColumnsE (cfg : List (String × ColumnConfig)) : Except PyErr InitState :=
  .ok (initColumns cfg)

/-- One column of the remote sheet schema: stable identifier and title. -/
structure SheetColumn where
  id : Int
  title : String
  deriving Repr, DecidableEq

/-- `SmartsheetIntegration.get_column_id` (lines 367-373): build a
title-to-id dict over the sheet's columns (a later column with the same
title overwrites an earlier one) and index it with the requested name;
a name absent from the schema raises `KeyError`. -/
def getColumnId (cols : List SheetColumn) (name : String) : Except PyErr Int :=
  match (cols.filter (fun c => c.title == name)).getLast? with
  | some c => .ok c.id
  | none => .error (.keyErr name)

/-- The `SmartsheetIntegration` state read by the merge methods. -/
structure Integration where
  schemaName : String
  tableName : String
  columnsConfig : List (String × ColumnConfig)
  primaryKeySS : String
  primaryKeySql : String
  currencyColumns : List String
  checkboxColumns : List String
  sheetColumns : List SheetColumn

/-- The Smartsheet currency cell format string set on pushed currency
cells. -/
def currencyFormat : String := ",,,,,,,,,,,13,0,1,2,,"

/-- The matched row pairs that the inner join
`pd.merge(df_sql, df_ss, how="inner", ...)` of lines 224 and 290
denotes: every relational row paired with every remote row whose
primary-key value compares `==` equal, in snapshot order.  In
`smartsheet_io.py` the join itself never runs — the `pd.merge` call
raises `NameError` first (see `mergeSmartsheetUpdates`); the sibling
copies of the class execute this exact line with `pd` bound. -/
def innerMatches (it : Integration) (dfSql : List Row) (dfSs : List SSRow) : List (Row × SSRow) :=
  (dfSql.map (fun r =>
    (dfSs.filter (fun s => pyEq (Row.get r it.primaryKeySql) (Row.get s.cells it.primaryKeySS))).map
      (fun s => (r, s)))).flatten

/-- The rows that the left join `pd.merge(df_sql, df_ss, how="left", ...)`
of line 204 denotes: every relational row, paired with its remote
matches when any exist and with nothing otherwise.  As with
`innerMatches`, in this module the line raises `NameError` before any
join is formed. -/
def leftMatches (it : Integration) (dfSql : List Row) (dfSs : List SSRow) : List (Row × Option SSRow) :=
  (dfSql.map (fun r =>
    match dfSs.filter (fun s => pyEq (Row.get r it.primaryKeySql) (Row.get s.cells it.primaryKeySS)) with
    | [] => [(r, none)]
    | ms => ms.map (fun s => (r, some s)))).flatten

/-!
## Remote update path (`merge_smartsheet_updates`, lines 221-279)
-/

/-- An updated Smartsheet cell queued by `merge_smartsheet_updates`:
column id, strict flag, optional cell format, and the value (also set
as display value).  A currency cell carries the canonical
two-fractional-digit string; any other cell carries the raw relational
value. -/
structure UpdateCell where
  columnId : Int
  strict : Bool
  format : Option String
  value : Value
  deriving Repr, DecidableEq

/-- A queued remote row update: the existing remote row id and the
changed cells. -/
structure UpdateRow where
  rowId : Int
  cells : List UpdateCell
  deriving Repr, DecidableEq

/-- The per-column loop body of `merge_smartsheet_updates` over the PUSH
columns of one matched pair: skip the column when the remote and
relational values compare `==` equal, otherwise queue a cell (resolving
the column id, and formatting the relational value as currency when the
column is currency-constrained). -/
def pushCells (it : Integration) (pr : Row × SSRow) :
    List (String × ColumnConfig) → Except PyErr (List UpdateCell)
  | [] => .ok []
  | (name, attrs) :: rest => do
    let sqlName := attrs.sql.getD name
    let ssV := Row.get pr.2.cells name
    let sqlV := Row.get pr.1 sqlName
    if pyEq ssV sqlV then
      pushCells it pr rest
    else do
      let cid ← getColumnId it.sheetColumns name
      let cell ←
        if it.currencyColumns.contains name then do
          let f ← pyFloat sqlV
          pure (⟨cid, false, some currencyFormat, .vstr (fmt2 f)⟩ : UpdateCell)
        else
          pure (⟨cid, true, none, sqlV⟩ : UpdateCell)
      let more ← pushCells it pr rest
      pure (cell :: more)

/-- The PUSH-action entries of the column configuration
(`columns_pushed`). -/
def pushedColumns (it : Integration) : List (String × ColumnConfig) :=
  it.columnsConfig.filter (fun e => e.2.type == "PUSH")

/-- The row loop of `merge_smartsheet_updates`: one queued row update
per matched pair that has at least one changed PUSH cell. -/
def updateRowsLoop (it : Integration) : List (Row × SSRow) → Except PyErr (List UpdateRow)
  | [] => .ok []
  | pr :: rest => do
    let cells ← pushCells it pr (pushedColumns it)
    let more ← updateRowsLoop it rest
    if cells.length > 0 then pure (⟨pr.2.rowId, cells⟩ :: more) else pure more

/-- `merge_smartsheet_updates` as it executes in this module: its first
statement `pd.merge(...)` (line 224) raises
`NameError: name 'pd' is not defined` on every call, since the module
imports only `DataFrame` from pandas—so no comparison is made, nothing
is queued and the exception propagates to the caller. -/
def mergeSmartsheetUpdates (_it : Integration) (_dfSql : List Row) (_dfSs : List SSRow) :
    Except PyErr (List UpdateRow) :=
  .error (.nameErr "pd")

/-- The `update_rows` calls a `merge_smartsheet_updates` call issues: in
this module the `NameError` propagates before any call is made. -/
def mergeSmartsheetUpdatesCalls (it : Integration) (dfSql : List Row) (dfSs : List SSRow) :
    Except PyErr (List (List UpdateRow)) := do
  let rows ← mergeSmartsheetUpdates it dfSql dfSs
  pure (if rows.length > 0 then [rows] else [])

/-- The body of `merge_smartsheet_updates` with `pd` bound (the pass the
sibling copies perform, and this module's evident intent): the queued
remote row updates of one pass over the two snapshots. -/
def updatesWithPd (it : Integration) (dfSql : List Row) (dfSs : List SSRow) :
    Except PyErr (List UpdateRow) :=
  updateRowsLoop it (innerMatches it dfSql dfSs)

/-- The `update_rows` calls of the `pd`-bound pass: one call carrying
all queued updates when there are any, and none otherwise
(`if len(update_rows) > 0`). -/
def updatesCallsWithPd (it : Integration) (dfSql : List Row) (dfSs : List SSRow) :
    Except PyErr (List (List UpdateRow)) := do
  let rows ← updatesWithPd it dfSql dfSs
  pure (if rows.length > 0 then [rows] else [])

/-!
## Remote insert path (`build_smartsheet_row_new` lines 168-200,
`merge_smartsheet_inserts` lines 202-219)
-/

/-- A cell of a newly built Smartsheet row: column id, the stringified
value, the strict flag when the branch sets one (the PRIMARY KEY branch
leaves the SDK default), and the optional currency format. -/
structure NewCell where
  columnId : Int
  value : String
  strict : Option Bool
  format : Option String
  deriving Repr, DecidableEq

/-- A new remote row queued for creation (`to_bottom` is always set). -/
structure NewRow where
  toBottom : Bool
  cells : List NewCell
  deriving Repr, DecidableEq

/-- The column loop of `build_smartsheet_row_new`: a cell per
PUSH/POPULATE column (currency formatted non-strict, checkbox
stringified non-strict, otherwise stringified strict) and per
PRIMARY KEY column (stringified, taken from the merged key value);
other actions add no cell. -/
def newCells (it : Integration) (sqlRow : Row) (pkVal : Value) :
    List (String × ColumnConfig) → Except PyErr (List NewCell)
  | [] => .ok []
  | (name, attrs) :: rest => do
    if attrs.type == "PUSH" ∨ attrs.type == "POPULATE" then do
      let sqlName := attrs.sql.getD name
      let sqlV := Row.get sqlRow sqlName
      let cell ←
        if it.currencyColumns.contains name then do
          let f ← pyFloat sqlV
          let cid ← getColumnId it.sheetColumns name
          pure (⟨cid, fmt2 f, some false, some currencyFormat⟩ : NewCell)
        else if it.checkboxColumns.contains name then do
          let cid ← getColumnId it.sheetColumns name
          pure (⟨cid, pyStr sqlV, some false, none⟩ : NewCell)
        else do
          let cid ← getColumnId it.sheetColumns name
          pure (⟨cid, pyStr sqlV, some true, none⟩ : NewCell)
      let more ← newCells it sqlRow pkVal rest
      pure (cell :: more)
    else if attrs.type == "PRIMARY KEY" then do
      let cid ← getColumnId it.sheetColumns name
      let more ← newCells it sqlRow pkVal rest
      pure (⟨cid, pyStr pkVal, none, none⟩ :: more)
    else
      newCells it sqlRow pkVal rest

/-- `build_smartsheet_row_new` on one row of the left-join frame. -/
def buildSmartsheetRowNew (it : Integration) (sqlRow : Row) (pkVal : Value) :
    Except PyErr NewRow := do
  let cells ← newCells it sqlRow pkVal it.columnsConfig
  pure ⟨true, cells⟩

/-- The merged primary-key value `dataframe_row[column_name]` read by the
PRIMARY KEY branch: when both sides name the key identically, pandas
keeps a single key column holding the relational value; when the names
differ, the remote key column is read, which is null for an unmatched
row. -/
def mergedPkValue (it : Integration) (pr : Row × Option SSRow) : Value :=
  if it.primaryKeySS == it.primaryKeySql then Row.get pr.1 it.primaryKeySql
  else
    match pr.2 with
    | some s => Row.get s.cells it.primaryKeySS
    | none => Value.vnone

/-- The row loop of `merge_smartsheet_inserts` over the left-join frame:
every row of `df_new` — the filter keeping only rows without a remote
match is commented out in the source (line 206) — is built into a new
remote row. -/
def insertRowsLoop (it : Integration) : List (Row × Option SSRow) → Except PyErr (List NewRow)
  | [] => .ok []
  | pr :: rest => do
    let row ← buildSmartsheetRowNew it pr.1 (mergedPkValue it pr)
    let more ← insertRowsLoop it rest
    pure (row :: more)

/-- `merge_smartsheet_inserts` as it executes in this module: its first
statement `pd.merge(...)` (line 204) raises
`NameError: name 'pd' is not defined` on every call, so no row is ever
built or inserted. -/
def mergeSmartsheetInserts (_it : Integration) (_dfSql : List Row) (_dfSs : List SSRow) :
    Except PyErr (List NewRow) :=
  .error (.nameErr "pd")

/-- The body of `merge_smartsheet_inserts` with `pd` bound: the new
remote rows built in one pass — every left-join row, because the filter
to unmatched rows is commented out at line 206. -/
def insertsWithPd (it : Integration) (dfSql : List Row) (dfSs : List SSRow) :
    Except PyErr (List NewRow) :=
  insertRowsLoop it (leftMatches it dfSql dfSs)

/-- The `add_rows` calls of the `pd`-bound insert pass: one call
carrying all new rows when there are any (`if len(new_rows_ss) > 0`). -/
def insertsCallsWithPd (it : Integration) (dfSql : List Row) (dfSs : List SSRow) :
    Except PyErr (List (List NewRow)) := do
  let rows ← insertsWithPd it dfSql dfSs
  pure (if rows.length > 0 then [rows] else [])

/-!
## Local update path (`merge_sql_updates`, lines 287-362)
-/

/-- The PULL-action entries of the column configuration
(`columns_pulled`). -/
def pulledColumns (it : Integration) : List (String × ColumnConfig) :=
  it.columnsConfig.filter (fun e => e.2.type == "PULL")

/-- The per-column loop of `merge_sql_updates` over the PULL columns of
one matched pair: skip the column when the two sides compare `==` equal;
otherwise record the remote value, with every single quote doubled for a
string and `None` kept for a null (`ss_value.replace` is a `str` method,
so a non-string non-null remote value raises `AttributeError`). -/
def pullChanges (it : Integration) (pr : Row × SSRow) :
    List (String × ColumnConfig) → Except PyErr (List (String × Option String))
  | [] => .ok []
  | (name, attrs) :: rest => do
    let sqlName := attrs.sql.getD name
    let ssV := Row.get pr.2.cells name
    let sqlV := Row.get pr.1 sqlName
    if pyEq ssV sqlV then
      pullChanges it pr rest
    else do
      let v ←
        match ssV with
        | .vnone => pure none
        | .vstr s => pure (some (escapeQuotes s))
        | _ => Except.error (PyErr.attributeErr "replace")
      let more ← pullChanges it pr rest
      pure ((name, v) :: more)

/-- Insert into the `update_rows_sql` dict: a key that compares `==`
equal to an existing one replaces that entry's value in place, any other
key is appended. -/
def dictInsert (d : List (Value × List (String × Option String))) (k : Value)
    (v : List (String × Option String)) : List (Value × List (String × Option String)) :=
  if d.any (fun e => pyEq e.1 k) then
    d.map (fun e => if pyEq e.1 k then (e.1, v) else e)
  else d ++ [(k, v)]

/-- The row loop of `merge_sql_updates`: pairs with no changed PULL
column are skipped, the rest are keyed in `update_rows_sql` by the
primary key's relational value. -/
def updateRowsSqlLoop (it : Integration) (acc : List (Value × List (String × Option String))) :
    List (Row × SSRow) → Except PyErr (List (Value × List (String × Option String)))
  | [] => .ok acc
  | pr :: rest => do
    let changes ← pullChanges it pr (pulledColumns it)
    if changes.isEmpty then
      updateRowsSqlLoop it acc rest
    else
      updateRowsSqlLoop it (dictInsert acc (Row.get pr.1 it.primaryKeySql) changes) rest

/-- The pending local updates of one pass (`update_rows_sql`). -/
def updateRowsSql (it : Integration) (dfSql : List Row) (dfSs : List SSRow) :
    Except PyErr (List (Value × List (String × Option String))) :=
  updateRowsSqlLoop it [] (innerMatches it dfSql dfSs)

/-- A string made of the single apostrophe character. -/
def sqS : String := String.mk [sqc]

/-- One `[column] = value` piece of the SET clause: the literal `NULL`
for a recorded `None` or empty string, otherwise the recorded (already
escaped) text between single quotes; each piece ends with `", "`. -/
def setPiece (e : String × Option String) : String :=
  match e.2 with
  | none => "[" ++ e.1 ++ "] = NULL, "
  | some s =>
    if s == "" then "[" ++ e.1 ++ "] = NULL, "
    else "[" ++ e.1 ++ "] = " ++ sqS ++ s ++ sqS ++ ", "

/-- The accumulated `sql_update_clause` before the trailing `", "` is
dropped. -/
def setClauseFull (changes : List (String × Option String)) : String :=
  changes.foldl (fun acc e => acc ++ setPiece e) ""

/-- Python `s[:-2]`: the string without its last two characters. -/
def dropLast2 (s : String) : String :=
  String.mk (s.data.take (s.data.length - 2))

/-- One generated `UPDATE` statement (lines 333-344): schema-qualified
table, SET clause without its trailing `", "`, and a WHERE clause that
embeds the stringified primary-key value verbatim between single
quotes. -/
def sqlStatement (it : Integration) (pk : Value) (changes : List (String × Option String)) : String :=
  "UPDATE [" ++ it.schemaName ++ "].[" ++ it.tableName ++ "]\nSET "
    ++ dropLast2 (setClauseFull changes)
    ++ "\nWHERE [" ++ it.primaryKeySql ++ "] = " ++ sqS ++ pyStr pk ++ sqS ++ "\n"

/-- The statement-batching loop (lines 350-362), with the growing
`sql_cmds` string buffer represented as the list of statements it
concatenates and `sql_update_count` equal to that list's length: after
the 100th appended statement the buffer is flushed and reset, and a
nonempty final buffer is flushed at the end.  Each emitted element is
one `execute_sql_query` call, carrying the statements whose
concatenation forms its text. -/
def flushLoop : List String → List String → List (List String)
  | [], pending => if pending.isEmpty then [] else [pending]
  | s :: rest, pending =>
    let p := pending ++ [s]
    if 100 ≤ p.length then p :: flushLoop rest [] else flushLoop rest p

/-- The batched statement flushes for a list of pending statements. -/
def flushBatches (stmts : List String) : List (List String) :=
  flushLoop stmts []

/-- `merge_sql_updates` as it executes in this module: its first
statement `pd.merge(...)` (line 290) raises
`NameError: name 'pd' is not defined` on every call, so no statement is
ever built and no batch submitted. -/
def mergeSqlUpdates (_it : Integration) (_dfSql : List Row) (_dfSs : List SSRow) :
    Except PyErr (List (List String)) :=
  .error (.nameErr "pd")

/-- The pending `UPDATE` statements of one `pd`-bound pass, in dict
order. -/
def sqlPendingWithPd (it : Integration) (dfSql : List Row) (dfSs : List SSRow) :
    Except PyErr (List String) := do
  let d ← updateRowsSql it dfSql dfSs
  pure (d.map (fun e => sqlStatement it e.1 e.2))

/-- The body of `merge_sql_updates` with `pd` bound: the
`execute_sql_query` calls of one pass, each as the list of statements
its text concatenates.  With no pending update the batching block is not
entered (`if update_rows_sql:`) and no call is made. -/
def sqlUpdatesWithPd (it : Integration) (dfSql : List Row) (dfSs : List SSRow) :
    Except PyErr (List (List String)) := do
  let stmts ← sqlPendingWithPd it dfSql dfSs
  pure (if stmts.isEmpty then [] else flushBatches stmts)

/-!
## Deletion stubs and engine state

`merge_smartsheet_deletes` (lines 281-282) and `merge_sql_deletes`
(lines 364-365) have `pass` bodies: they read nothing, write nothing and
return immediately.  `EngineState` collects everything such a method
could observe or change: the two loaded snapshots plus the write calls
issued so far to either store. -/

structure EngineState where
  dfSql : List Row
  dfSs : List SSRow
  remoteCalls : List (List UpdateRow)
  sqlCalls : List (List String)

/-- `merge_smartsheet_deletes`: a `pass` body — the state is returned
unchanged. -/
def mergeSmartsheetDeletes (st : EngineState) : EngineState := st

/-- `merge_sql_deletes`: a `pass` body — the state is returned
unchanged. -/
def mergeSqlDeletes (st : EngineState) : EngineState := st

/-!
## Characterization helpers and concrete fixtures

`lastPrimaryKey`, `sizesFrom` and `pulledLiteral` are specification-side
characterizations used to state theorems about the embedded code; the
`it*`/`df*` definitions below are the concrete scenarios the claims
mention.
-/

/-- The last configuration entry whose action is `PRIMARY KEY`, if any:
the entry whose names the `__init__` loop ends up recording. -/
def lastPrimaryKey : List (String × ColumnConfig) → Option (String × ColumnConfig)
  | [] => none
  | e :: rest =>
    match lastPrimaryKey rest with
    | some x => some x
    | none => if e.2.type == "PRIMARY KEY" then some e else none

/-- The flush sizes the batching loop produces from a buffer currently
holding `p` statements with `s` statements still to come. -/
def sizesFrom : Nat → Nat → List Nat
  | p, 0 => if p = 0 then [] else [p]
  | p, Nat.succ s => if p + 1 = 100 then 100 :: sizesFrom 0 s else sizesFrom (p + 1) s

/-- The literal recorded for a changed pulled value: `None` stays null,
a string gets its single quotes doubled (any other kind raises before a
literal is recorded). -/
def pulledLiteral : Value → Option String
  | .vnone => none
  | .vstr s => some (escapeQuotes s)
  | _ => none

/-- The §8 scenario policy: `{id: PRIMARY KEY, name: PUSH, status: PULL}`. -/
def cfgC5 : List (String × ColumnConfig) :=
  [("id", ⟨"PRIMARY KEY", none, none⟩), ("name", ⟨"PUSH", none, none⟩),
   ("status", ⟨"PULL", none, none⟩)]

/-- The §8 scenario integration state (fields as `__init__` computes
them from `cfgC5`; see `C5_scenario`). -/
def itC5 : Integration :=
  ⟨"dbo", "T", cfgC5, "id", "id", [], [], [⟨101, "id"⟩, ⟨102, "name"⟩, ⟨103, "status"⟩]⟩

/-- The §8 scenario relational snapshot: `{id: 1, name: "A", status: "open"}`. -/
def dfSqlC5 : List Row := [[("id", .vint 1), ("name", .vstr "A"), ("status", .vstr "open")]]

/-- The §8 scenario remote snapshot: `{id: 1, name: "B", status: "closed"}`. -/
def dfSsC5 : List SSRow := [⟨5001, [("id", .vint 1), ("name", .vstr "B"), ("status", .vstr "closed")]⟩]

/-- A policy with one CURRENCY-constrained PUSH column. -/
def cfgC2 : List (String × ColumnConfig) :=
  [("id", ⟨"PRIMARY KEY", none, none⟩), ("amt", ⟨"PUSH", none, some "CURRENCY"⟩)]

/-- Integration state for `cfgC2` (fields as `__init__` computes them). -/
def itC2 : Integration :=
  ⟨"dbo", "T", cfgC2, "id", "id", ["amt"], [], [⟨1, "id"⟩, ⟨2, "amt"⟩]⟩

/-- Relational row with currency value `12.5`. -/
def dfSqlC2 : List Row := [[("id", .vint 7), ("amt", .vfloat ⟨25, 2⟩)]]

/-- Remote row with currency value `"12.50"`. -/
def dfSsC2 : List SSRow := [⟨9001, [("id", .vint 7), ("amt", .vstr "12.50")]⟩]

/-- A policy exercising every cell-producing action for the insert path. -/
def cfgC3 : List (String × ColumnConfig) :=
  [("id", ⟨"PRIMARY KEY", none, none⟩), ("name", ⟨"PUSH", none, none⟩),
   ("memo", ⟨"POPULATE", none, none⟩), ("status", ⟨"PULL", none, none⟩),
   ("x", ⟨"IGNORE", none, none⟩)]

/-- Integration state for `cfgC3`. -/
def itC3 : Integration :=
  ⟨"dbo", "T", cfgC3, "id", "id", [], [],
   [⟨11, "id"⟩, ⟨12, "name"⟩, ⟨13, "memo"⟩, ⟨14, "status"⟩, ⟨15, "x"⟩]⟩

/-- Relational row with primary key `42`. -/
def dfSqlC3 : List Row :=
  [[("id", .vint 42), ("name", .vstr "A"), ("memo", .vstr "m"), ("status", .vstr "s"), ("x", .vstr "i")]]

/-- Remote snapshot already holding a row with primary key `42`. -/
def dfSsC3 : List SSRow :=
  [⟨7001, [("id", .vint 42), ("name", .vstr "A"), ("memo", .vstr "m"), ("status", .vstr "s"), ("x", .vstr "i")]⟩]

/-- The new remote row `build_smartsheet_row_new` makes of the `dfSqlC3`
row: one cell per PRIMARY KEY / PUSH / POPULATE column, none for PULL or
IGNORE. -/
def newRowC3 : NewRow :=
  ⟨true, [⟨11, "42", none, none⟩, ⟨12, "A", some true, none⟩, ⟨13, "m", some true, none⟩]⟩

/-- A policy with two PULL columns, for the quoting claims. -/
def cfgC10 : List (String × ColumnConfig) :=
  [("id", ⟨"PRIMARY KEY", none, none⟩), ("note", ⟨"PULL", none, none⟩),
   ("memo", ⟨"PULL", none, none⟩)]

/-- Integration state for `cfgC10`. -/
def itC10 : Integration :=
  ⟨"dbo", "T", cfgC10, "id", "id", [], [], [⟨21, "id"⟩, ⟨22, "note"⟩, ⟨23, "memo"⟩]⟩

/-- The single matched pair of the quoting scenario. -/
def prC8 : Row × SSRow :=
  ([("id", .vstr "a'b"), ("note", .vstr "z"), ("memo", .vstr "m")],
   ⟨31, [("id", .vstr "a'b"), ("note", .vstr "x'y"), ("memo", .vstr "")]⟩)

/-- The single matched pair of the currency scenario. -/
def prC2 : Row × SSRow :=
  ([("id", .vint 7), ("amt", .vfloat ⟨25, 2⟩)],
   ⟨9001, [("id", .vint 7), ("amt", .vstr "12.50")]⟩)

/-!
## Claim theorems
-/

/-- C1 (counterexample): a configuration with zero PRIMARY KEY entries
and an action value outside the enumerated set is accepted: the
constructor's column loop returns normally instead of failing with a
configuration error, refuting the claim as stated. -/
theorem C1_counterexample :
    (([("a", ⟨"PUSH", none, none⟩), ("b", ⟨"FROBNICATE", none, none⟩)]
        : List (String × ColumnConfig)).filter (fun e => e.2.type == "PRIMARY KEY")).length = 0
    ∧ initColumnsE [("a", ⟨"PUSH", none, none⟩), ("b", ⟨"FROBNICATE", none, none⟩)]
        = .ok ⟨none, none, [], []⟩ := by
  exact ⟨by decide, by decide⟩

/-- C2 (counterexample): at relational `12.5` against remote `"12.50"` —
both of which have the canonical two-fractional-digit form `"12.50"` —
the claim says the pass compares the canonical strings of both sides
and queues no update; instead the call raises `NameError` (`pd` is
never bound in this module) before any comparison, and the per-pair
cell fragment the method would run compares the raw values and queues a
cell writing `"12.50"`. -/
theorem C2_counterexample :
    ((pyFloat (Value.vfloat ⟨25, 2⟩)).map fmt2 = .ok "12.50"
      ∧ (pyFloat (Value.vstr "12.50")).map fmt2 = .ok "12.50")
    ∧ mergeSmartsheetUpdates itC2 dfSqlC2 dfSsC2 = .error (.nameErr "pd")
    ∧ pushCells itC2 prC2 (pushedColumns itC2)
        = .ok [⟨2, false, some currencyFormat, .vstr "12.50"⟩] := by
  exact ⟨⟨by decide, by decide⟩, by decide, by decide⟩

/-- C3 (code behaviour at the failing input): every call to
`merge_smartsheet_inserts` raises `NameError` (`pd` unbound), so the
relational row with primary key `42` absent from the remote snapshot is
never inserted at all; and in the `pd`-bound pass the method evidently
intends (and the sibling copies run), the row is included in exactly one
create-call with cells exactly for the PRIMARY KEY, PUSH and POPULATE
columns — but the very same create-call is also issued when a remote row
with primary key `42` already exists, because the filter to "new" rows
is commented out at line 206. -/
theorem C3_insert_behavior :
    mergeSmartsheetInserts itC3 dfSqlC3 [] = .error (.nameErr "pd")
    ∧ insertsCallsWithPd itC3 dfSqlC3 [] = .ok [[newRowC3]]
    ∧ insertsCallsWithPd itC3 dfSqlC3 dfSsC3 = .ok [[newRowC3]] := by
  exact ⟨by decide, by decide, by decide⟩

/-- C4 (counterexample): a matched snapshot pair equal on every PUSH
and PULL column (hence normalized-equal under any reading, as the first
two conjuncts record) does not yield a completed pass issuing no write
call: both update paths raise `NameError` (`pd` unbound) instead of
returning the empty call list the claim describes. -/
theorem C4_counterexample :
    pushCells itC5
        ([("id", .vint 9), ("name", .vstr "N"), ("status", .vstr "st")],
          ⟨6002, [("id", .vint 9), ("name", .vstr "N"), ("status", .vstr "st")]⟩)
        (pushedColumns itC5) = .ok []
    ∧ pullChanges itC5
        ([("id", .vint 9), ("name", .vstr "N"), ("status", .vstr "st")],
          ⟨6002, [("id", .vint 9), ("name", .vstr "N"), ("status", .vstr "st")]⟩)
        (pulledColumns itC5) = .ok []
    ∧ mergeSmartsheetUpdatesCalls itC5
        [[("id", .vint 9), ("name", .vstr "N"), ("status", .vstr "st")]]
        [⟨6002, [("id", .vint 9), ("name", .vstr "N"), ("status", .vstr "st")]⟩]
        = .error (.nameErr "pd")
    ∧ mergeSqlUpdates itC5
        [[("id", .vint 9), ("name", .vstr "N"), ("status", .vstr "st")]]
        [⟨6002, [("id", .vint 9), ("name", .vstr "N"), ("status", .vstr "st")]⟩]
        = .error (.nameErr "pd") := by
  exact ⟨by decide, by decide, by decide, by decide⟩

/-- C5 (code behaviour at the failing input): for the policy
`{id: PRIMARY KEY, name: PUSH, status: PULL}` with relational row
`{id: 1, name: "A", status: "open"}` and remote row
`{id: 1, name: "B", status: "closed"}`, both update methods raise
`NameError` (`pd` unbound) and produce neither of the claimed
mutations; in the `pd`-bound pass they evidently intend (and the
sibling copies run), the pass issues exactly one remote update call
whose single cell sets `name` to `"A"` and exactly one relational call
with the single statement setting `status` to `'closed'` for the row
with primary key `1`, and nothing else. -/
theorem C5_scenario :
    initColumns cfgC5 = ⟨some "id", some "id", [], []⟩
    ∧ mergeSmartsheetUpdatesCalls itC5 dfSqlC5 dfSsC5 = .error (.nameErr "pd")
    ∧ mergeSqlUpdates itC5 dfSqlC5 dfSsC5 = .error (.nameErr "pd")
    ∧ updatesCallsWithPd itC5 dfSqlC5 dfSsC5
        = .ok [[⟨5001, [⟨102, true, none, .vstr "A"⟩]⟩]]
    ∧ sqlUpdatesWithPd itC5 dfSqlC5 dfSsC5
        = .ok [["UPDATE [dbo].[T]\nSET [status] = 'closed'\nWHERE [id] = '1'\n"]] := by
  exact ⟨by decide, by decide, by decide, by decide, by decide⟩

/-- C9: both deletion-propagation methods have `pass` bodies: on every
engine state they issue no write and leave the snapshots and recorded
calls unchanged. -/
theorem C9_deletes_noop (st : EngineState) :
    mergeSmartsheetDeletes st = st ∧ mergeSqlDeletes st = st :=
  ⟨rfl, rfl⟩

/-- Auxiliary: when the entry is not a PRIMARY KEY one, the `__init__`
loop body leaves the recorded primary-key names unchanged. -/
theorem initStep_pk_of_ne (st : InitState) (e : String × ColumnConfig)
    (h : (e.2.type == "PRIMARY KEY") = false) :
    ((initStep st e).primaryKeySS, (initStep st e).primaryKeySql)
      = (st.primaryKeySS, st.primaryKeySql) := by
  unfold initStep
  rw [h]
  simp only [Bool.false_eq_true, if_false]
  split
  · rfl
  · split
    · rfl
    · rfl

/-- Auxiliary: the primary-key names the `__init__` loop records are
those of the last PRIMARY KEY entry, or the initial ones when there is
none. -/
theorem foldl_initStep_pk (cfg : List (String × ColumnConfig)) : ∀ st : InitState,
    ((cfg.foldl initStep st).primaryKeySS, (cfg.foldl initStep st).primaryKeySql)
      = match lastPrimaryKey cfg with
        | some e => (some e.1, some (e.2.sql.getD e.1))
        | none => (st.primaryKeySS, st.primaryKeySql) := by
  induction cfg with
  | nil => intro st; rfl
  | cons e rest ih =>
    intro st
    simp only [List.foldl_cons, lastPrimaryKey]
    rw [ih (initStep st e)]
    cases hl : lastPrimaryKey rest with
    | some x => simp
    | none =>
      simp only []
      by_cases hp : (e.2.type == "PRIMARY KEY") = true
      · rw [hp]
        unfold initStep
        rw [hp]
        simp
      · rw [Bool.not_eq_true] at hp
        rw [hp]
        simp only [Bool.false_eq_true, if_false]
        exact initStep_pk_of_ne st e hp

/-- C1 (amended): construction never fails — the column-policy loop of
the constructor accepts every configuration, silently ignoring unknown
action values; it records the names of the last PRIMARY KEY entry when
one exists and records none with zero PRIMARY KEY entries (so nothing
validates the exactly-one invariant and no configuration error is
raised). -/
theorem C1_construction_total (cfg : List (String × ColumnConfig)) :
    initColumnsE cfg = .ok (initColumns cfg)
    ∧ (initColumns cfg).primaryKeySS = (lastPrimaryKey cfg).map (fun e => e.1)
    ∧ (initColumns cfg).primaryKeySql = (lastPrimaryKey cfg).map (fun e => e.2.sql.getD e.1) := by
  have h := foldl_initStep_pk cfg ⟨none, none, [], []⟩
  unfold initColumns
  refine ⟨rfl, ?_, ?_⟩
  · cases hl : lastPrimaryKey cfg <;> rw [hl] at h <;>
      simpa using congrArg Prod.fst h
  · cases hl : lastPrimaryKey cfg <;> rw [hl] at h <;>
      simpa using congrArg Prod.snd h

/-- Auxiliary: when every listed PUSH column compares equal on a matched
pair, the cell loop queues nothing. -/
theorem pushCells_all_eq (it : Integration) (pr : Row × SSRow) :
    ∀ cols : List (String × ColumnConfig),
    (∀ e ∈ cols, pyEq (Row.get pr.2.cells e.1) (Row.get pr.1 (e.2.sql.getD e.1)) = true) →
    pushCells it pr cols = .ok [] := by
  intro cols
  induction cols with
  | nil => intro _; rfl
  | cons e rest ih =>
    intro h
    obtain ⟨name, attrs⟩ := e
    have he := h (name, attrs) (List.mem_cons_self _ _)
    simp only [pushCells, he, if_true]
    exact ih (fun x hx => h x (List.mem_cons_of_mem _ hx))

/-- Auxiliary: when every PUSH column of every matched pair compares
equal, the row loop queues no update row. -/
theorem updateRowsLoop_all_eq (it : Integration) :
    ∀ prs : List (Row × SSRow),
    (∀ pr ∈ prs, ∀ e ∈ pushedColumns it,
        pyEq (Row.get pr.2.cells e.1) (Row.get pr.1 (e.2.sql.getD e.1)) = true) →
    updateRowsLoop it prs = .ok [] := by
  intro prs
  induction prs with
  | nil => intro _; rfl
  | cons pr rest ih =>
    intro h
    have hc := pushCells_all_eq it pr (pushedColumns it) (h pr (List.mem_cons_self _ _))
    have hr := ih (fun x hx => h x (List.mem_cons_of_mem _ hx))
    simp [updateRowsLoop, hc, hr]
    rfl

/-- Auxiliary: when every listed PULL column compares equal on a matched
pair, the pull loop records no change. -/
theorem pullChanges_all_eq (it : Integration) (pr : Row × SSRow) :
    ∀ cols : List (String × ColumnConfig),
    (∀ e ∈ cols, pyEq (Row.get pr.2.cells e.1) (Row.get pr.1 (e.2.sql.getD e.1)) = true) →
    pullChanges it pr cols = .ok [] := by
  intro cols
  induction cols with
  | nil => intro _; rfl
  | cons e rest ih =>
    intro h
    obtain ⟨name, attrs⟩ := e
    have he := h (name, attrs) (List.mem_cons_self _ _)
    simp only [pullChanges, he, if_true]
    exact ih (fun x hx => h x (List.mem_cons_of_mem _ hx))

/-- Auxiliary: when every PULL column of every matched pair compares
equal, the row loop leaves the pending dict as it found it. -/
theorem updateRowsSqlLoop_all_eq (it : Integration) :
    ∀ (prs : List (Row × SSRow)) (acc : List (Value × List (String × Option String))),
    (∀ pr ∈ prs, ∀ e ∈ pulledColumns it,
        pyEq (Row.get pr.2.cells e.1) (Row.get pr.1 (e.2.sql.getD e.1)) = true) →
    updateRowsSqlLoop it acc prs = .ok acc := by
  intro prs
  induction prs with
  | nil => intro acc _; rfl
  | cons pr rest ih =>
    intro acc h
    have hc := pullChanges_all_eq it pr (pulledColumns it) (h pr (List.mem_cons_self _ _))
    have hr := ih acc (fun x hx => h x (List.mem_cons_of_mem _ hx))
    simp [updateRowsSqlLoop, hc, hr]
    rfl

/-- C4 (amended): in this module neither update path ever completes a
pass — every call raises `NameError` (`pd` unbound), so in particular no
write call is ever made, but no pass completes write-free either; in the
`pd`-bound pass the methods evidently intend (and the sibling copies
run), matched pairs whose PUSH and PULL columns all compare equal under
the raw Python `==` the code applies — under which null on both sides is
equal — queue no mutation, so a pass with zero changed rows completes
without issuing any write call. -/
theorem C4_noop (it : Integration) (dfSql : List Row) (dfSs : List SSRow)
    (hpush : ∀ pr ∈ innerMatches it dfSql dfSs, ∀ e ∈ pushedColumns it,
        pyEq (Row.get pr.2.cells e.1) (Row.get pr.1 (e.2.sql.getD e.1)) = true)
    (hpull : ∀ pr ∈ innerMatches it dfSql dfSs, ∀ e ∈ pulledColumns it,
        pyEq (Row.get pr.2.cells e.1) (Row.get pr.1 (e.2.sql.getD e.1)) = true) :
    mergeSmartsheetUpdatesCalls it dfSql dfSs = .error (.nameErr "pd")
    ∧ mergeSqlUpdates it dfSql dfSs = .error (.nameErr "pd")
    ∧ updatesWithPd it dfSql dfSs = .ok []
    ∧ updatesCallsWithPd it dfSql dfSs = .ok []
    ∧ sqlPendingWithPd it dfSql dfSs = .ok []
    ∧ sqlUpdatesWithPd it dfSql dfSs = .ok [] := by
  have hu : updatesWithPd it dfSql dfSs = .ok [] :=
    updateRowsLoop_all_eq it (innerMatches it dfSql dfSs) hpush
  have hd : updateRowsSql it dfSql dfSs = .ok [] :=
    updateRowsSqlLoop_all_eq it (innerMatches it dfSql dfSs) [] hpull
  have hp : sqlPendingWithPd it dfSql dfSs = .ok [] := by
    simp [sqlPendingWithPd, hd]
  refine ⟨rfl, rfl, hu, ?_, hp, ?_⟩
  · simp [updatesCallsWithPd, hu]
  · simp [sqlUpdatesWithPd, hp]

/-- C4 (witness): a matched pair already equal on its PUSH and PULL
columns: the methods as they run in this module raise `NameError`, and
the `pd`-bound pass completes with no queued mutation and no write
call. -/
theorem C4_noop_witness :
    mergeSmartsheetUpdatesCalls itC5
        [[("id", .vint 1), ("name", .vstr "A"), ("status", .vstr "open")]]
        [⟨6001, [("id", .vint 1), ("name", .vstr "A"), ("status", .vstr "open")]⟩]
        = .error (.nameErr "pd")
    ∧ updatesCallsWithPd itC5
        [[("id", .vint 1), ("name", .vstr "A"), ("status", .vstr "open")]]
        [⟨6001, [("id", .vint 1), ("name", .vstr "A"), ("status", .vstr "open")]⟩] = .ok []
    ∧ sqlUpdatesWithPd itC5
        [[("id", .vint 1), ("name", .vstr "A"), ("status", .vstr "open")]]
        [⟨6001, [("id", .vint 1), ("name", .vstr "A"), ("status", .vstr "open")]⟩] = .ok [] := by
  have h := C4_noop itC5
      [[("id", .vint 1), ("name", .vstr "A"), ("status", .vstr "open")]]
      [⟨6001, [("id", .vint 1), ("name", .vstr "A"), ("status", .vstr "open")]⟩]
      (by decide) (by decide)
  exact ⟨h.1, h.2.2.2.1, h.2.2.2.2.2⟩

/-- Auxiliary: the flush sizes of the batching loop, for any buffer
holding fewer than 100 statements. -/
theorem flushLoop_sizes (stmts : List String) : ∀ pending : List String,
    pending.length < 100 →
    (flushLoop stmts pending).map List.length = sizesFrom pending.length stmts.length := by
  induction stmts with
  | nil =>
    intro pending _
    cases pending with
    | nil => rfl
    | cons a t => simp [flushLoop, sizesFrom]
  | cons s rest ih =>
    intro pending h
    simp only [flushLoop]
    by_cases hc : 100 ≤ (pending ++ [s]).length
    · rw [if_pos hc]
      have hpl : pending.length + 1 = 100 := by
        simp only [List.length_append, List.length_cons, List.length_nil] at hc
        omega
      have h100 : (pending ++ [s]).length = 100 := by
        simp only [List.length_append, List.length_cons, List.length_nil]
        omega
      rw [List.map_cons, h100, ih [] (by simp)]
      show 100 :: sizesFrom 0 rest.length = sizesFrom pending.length (Nat.succ rest.length)
      rw [sizesFrom, if_pos hpl]
    · rw [if_neg hc]
      have hlt : (pending ++ [s]).length < 100 := Nat.lt_of_not_le hc
      rw [ih (pending ++ [s]) hlt]
      have hne : ¬ pending.length + 1 = 100 := by
        simp only [List.length_append, List.length_cons, List.length_nil] at hc
        omega
      show sizesFrom (pending ++ [s]).length rest.length
          = sizesFrom pending.length (Nat.succ rest.length)
      rw [sizesFrom, if_neg hne]
      simp

/-- Auxiliary: the batching loop flushes every pending statement exactly
once, in order. -/
theorem flushLoop_flatten (stmts : List String) : ∀ pending : List String,
    (flushLoop stmts pending).flatten = pending ++ stmts := by
  induction stmts with
  | nil => intro pending; cases pending <;> simp [flushLoop]
  | cons s rest ih =>
    intro pending
    simp only [flushLoop]
    by_cases hc : 100 ≤ (pending ++ [s]).length
    · rw [if_pos hc]
      simp [ih]
    · rw [if_neg hc]
      rw [ih (pending ++ [s])]
      simp

/-- C6: in this module `merge_sql_updates` raises `NameError` (`pd`
unbound) on every call and never reaches the batching loop, so nothing
is ever submitted; the batching loop itself (lines 328-362), as the
`pd`-bound pass runs it, submits the pending statements as flushes of
exactly 100 statements with the buffer reset after each flush and a
final partial flush, loses and duplicates nothing, and turns 250 pending
statements into exactly the flush sizes 100, 100, 50. -/
theorem C6_batching :
    (∀ (it : Integration) (dfSql : List Row) (dfSs : List SSRow),
        mergeSqlUpdates it dfSql dfSs = .error (.nameErr "pd"))
    ∧ (∀ (it : Integration) (dfSql : List Row) (dfSs : List SSRow),
        sqlUpdatesWithPd it dfSql dfSs = (sqlPendingWithPd it dfSql dfSs).map flushBatches)
    ∧ (∀ stmts : List String, (flushBatches stmts).map List.length = sizesFrom 0 stmts.length)
    ∧ (∀ stmts : List String, (flushBatches stmts).flatten = stmts)
    ∧ sizesFrom 0 250 = [100, 100, 50] := by
  refine ⟨fun it d1 d2 => rfl, ?_, ?_, ?_, by decide⟩
  · intro it d1 d2
    unfold sqlUpdatesWithPd
    cases h : sqlPendingWithPd it d1 d2 with
    | error e => rfl
    | ok stmts =>
      cases stmts with
      | nil => rfl
      | cons a t => rfl
  · intro stmts
    simpa using flushLoop_sizes stmts [] (by simp)
  · intro stmts
    simpa using flushLoop_flatten stmts []

/-- C7: the name-to-identifier lookup over the remote sheet schema fails
(with the `KeyError` the spec calls `UnknownColumnError`) exactly for
names absent from the schema, and for a present name it returns the
stable identifier of a schema column carrying that name. -/
theorem C7_column_lookup (cols : List SheetColumn) (name : String) :
    ((cols.any (fun c => c.title == name)) = false →
        getColumnId cols name = .error (.keyErr name))
    ∧ ((cols.any (fun c => c.title == name)) = true →
        ∃ i, getColumnId cols name = .ok i)
    ∧ (∀ i, getColumnId cols name = .ok i →
        ∃ c ∈ cols, c.title = name ∧ c.id = i) := by
  refine ⟨?_, ?_, ?_⟩
  · intro h
    have hnil : cols.filter (fun c => c.title == name) = [] := by
      rw [List.filter_eq_nil_iff]
      intro a ha hp
      have hany : cols.any (fun c => c.title == name) = true :=
        List.any_eq_true.mpr ⟨a, ha, hp⟩
      rw [h] at hany
      exact Bool.false_ne_true hany
    unfold getColumnId
    rw [hnil]
    rfl
  · intro h
    obtain ⟨x, hx, hp⟩ := List.any_eq_true.mp h
    have hne : cols.filter (fun c => c.title == name) ≠ [] := by
      intro hnil
      rw [List.filter_eq_nil_iff] at hnil
      exact hnil x hx hp
    refine ⟨((cols.filter (fun c => c.title == name)).getLast hne).id, ?_⟩
    unfold getColumnId
    rw [List.getLast?_eq_getLast_of_ne_nil hne]
  · intro i h
    unfold getColumnId at h
    cases hl : (cols.filter (fun c => c.title == name)).getLast? with
    | none => rw [hl] at h; exact absurd h (by simp)
    | some c =>
      rw [hl] at h
      have hmem : c ∈ cols.filter (fun c => c.title == name) := by
        have hcm : c ∈ (cols.filter (fun c => c.title == name)).getLast? := by
          rw [hl]; rfl
        obtain ⟨hne, heq⟩ := List.mem_getLast?_eq_getLast hcm
        rw [heq]
        exact List.getLast_mem hne
      rw [List.mem_filter] at hmem
      refine ⟨c, hmem.1, by simpa using hmem.2, ?_⟩
      simpa using h

/-- C7 (witness): on a two-column schema, looking up an absent name
fails with the key error and a present name resolves. -/
theorem C7_column_lookup_witness :
    getColumnId ([⟨101, "id"⟩, ⟨102, "name"⟩] : List SheetColumn) "status"
        = .error (.keyErr "status")
    ∧ ∃ i, getColumnId ([⟨101, "id"⟩, ⟨102, "name"⟩] : List SheetColumn) "name" = .ok i := by
  exact ⟨(C7_column_lookup [⟨101, "id"⟩, ⟨102, "name"⟩] "status").1 (by decide),
    (C7_column_lookup [⟨101, "id"⟩, ⟨102, "name"⟩] "name").2.1 (by decide)⟩

/-- Auxiliary: on a successful pass over a matched pair, the recorded
pull changes are exactly the listed columns whose two sides compare
unequal, in order, each recorded as null for a null remote value and as
the quote-doubled text for a string remote value. -/
theorem pullChanges_spec (it : Integration) (pr : Row × SSRow) :
    ∀ (cols : List (String × ColumnConfig)) (out : List (String × Option String)),
    pullChanges it pr cols = .ok out →
    out = (cols.filter (fun e =>
        !(pyEq (Row.get pr.2.cells e.1) (Row.get pr.1 (e.2.sql.getD e.1))))).map
      (fun e => (e.1, pulledLiteral (Row.get pr.2.cells e.1))) := by
  intro cols
  induction cols with
  | nil =>
    intro out h
    cases h
    rfl
  | cons e rest ih =>
    intro out h
    obtain ⟨name, attrs⟩ := e
    by_cases hp : pyEq (Row.get pr.2.cells name) (Row.get pr.1 (attrs.sql.getD name)) = true
    · simp only [pullChanges, hp, if_true] at h
      rw [List.filter_cons]
      simp only [hp, Bool.not_true, Bool.false_eq_true, if_false]
      exact ih out h
    · rw [Bool.not_eq_true] at hp
      simp only [pullChanges, hp, Bool.false_eq_true, if_false] at h
      rw [List.filter_cons]
      simp only [hp, Bool.not_false, if_true, List.map_cons]
      cases hv : Row.get pr.2.cells name with
      | vnone =>
        rw [hv] at h
        cases hrest : pullChanges it pr rest with
        | error er =>
          rw [hrest] at h
          exact Except.noConfusion h
        | ok more =>
          rw [hrest] at h
          have h2 : Except.ok ((name, (none : Option String)) :: more)
              = (Except.ok out : Except PyErr (List (String × Option String))) := h
          injection h2 with h3
          rw [← h3]
          simp only [pulledLiteral, List.cons.injEq, true_and]
          exact ih more hrest
      | vstr sv =>
        rw [hv] at h
        cases hrest : pullChanges it pr rest with
        | error er =>
          rw [hrest] at h
          exact Except.noConfusion h
        | ok more =>
          rw [hrest] at h
          have h2 : Except.ok ((name, some (escapeQuotes sv)) :: more)
              = (Except.ok out : Except PyErr (List (String × Option String))) := h
          injection h2 with h3
          rw [← h3]
          simp only [pulledLiteral, List.cons.injEq, true_and]
          exact ih more hrest
      | vint n =>
        rw [hv] at h
        exact Except.noConfusion h
      | vfloat f =>
        rw [hv] at h
        exact Except.noConfusion h
      | vbool b =>
        rw [hv] at h
        exact Except.noConfusion h

/-- C8: a generated local UPDATE statement covers exactly the changed
PULL columns (changes are the unequal listed columns, in order), emits
the literal NULL piece for a null recorded value, puts a non-null
recorded value between single quotes after its quotes were doubled,
keys the pending entry by the primary key's relational value, and
embeds the stringified key verbatim in the WHERE clause. -/
theorem C8_update_statement :
    (∀ (it : Integration) (pr : Row × SSRow) (out : List (String × Option String)),
        pullChanges it pr (pulledColumns it) = .ok out →
        out = ((pulledColumns it).filter (fun e =>
            !(pyEq (Row.get pr.2.cells e.1) (Row.get pr.1 (e.2.sql.getD e.1))))).map
          (fun e => (e.1, pulledLiteral (Row.get pr.2.cells e.1))))
    ∧ (∀ c : String, setPiece (c, none) = "[" ++ c ++ "] = NULL, ")
    ∧ (∀ c s : String, setPiece (c, some s)
        = if s = "" then "[" ++ c ++ "] = NULL, "
          else "[" ++ c ++ "] = " ++ sqS ++ s ++ sqS ++ ", ")
    ∧ (∀ (it : Integration) (acc : List (Value × List (String × Option String)))
        (pr : Row × SSRow) (rest : List (Row × SSRow)) (changes : List (String × Option String)),
        pullChanges it pr (pulledColumns it) = .ok changes → changes ≠ [] →
        updateRowsSqlLoop it acc (pr :: rest)
          = updateRowsSqlLoop it (dictInsert acc (Row.get pr.1 it.primaryKeySql) changes) rest)
    ∧ (∀ (it : Integration) (pk : Value) (changes : List (String × Option String)),
        sqlStatement it pk changes
          = "UPDATE [" ++ it.schemaName ++ "].[" ++ it.tableName ++ "]\nSET "
            ++ dropLast2 (setClauseFull changes)
            ++ "\nWHERE [" ++ it.primaryKeySql ++ "] = " ++ sqS ++ pyStr pk ++ sqS ++ "\n") := by
  refine ⟨fun it pr => pullChanges_spec it pr (pulledColumns it), fun c => rfl, ?_, ?_, fun it pk changes => rfl⟩
  · intro c s
    by_cases h : s = "" <;> simp [setPiece, h]
  · intro it acc pr rest changes h hne
    simp only [updateRowsSqlLoop, h]
    cases changes with
    | nil => exact absurd rfl hne
    | cons a t => rfl

/-- C8 (witness): on the quoting scenario's matched pair, the recorded
changes are exactly the two unequal PULL columns, with the quote in
`x'y` doubled and the empty string kept for NULL emission. -/
theorem C8_update_statement_witness :
    ([("note", some "x''y"), ("memo", some "")] : List (String × Option String))
      = ((pulledColumns itC10).filter (fun e =>
          !(pyEq (Row.get prC8.2.cells e.1) (Row.get prC8.1 (e.2.sql.getD e.1))))).map
        (fun e => (e.1, pulledLiteral (Row.get prC8.2.cells e.1))) :=
  C8_update_statement.1 itC10 prC8 [("note", some "x''y"), ("memo", some "")] (by decide)

/-- C2 (amended): in this module `merge_smartsheet_updates` raises
`NameError` (`pd` unbound) on every call, so no comparison is ever made
and nothing queued or written; in the per-pair cell fragment the method
would run (and the sibling copies do run), the canonical
two-fractional-digit string is applied only to the value written
remotely — inputs 12, 12.0 and "12.00" all format to "12.00" — while the
update decision compares the raw values with Python `==`: whenever a
CURRENCY-constrained PUSH column compares raw-unequal, the queued cell
carries the canonical string of the relational value.  (The claim's
comparison-side normalization fails: see the counterexample.) -/
theorem C2_currency_write (it : Integration) (pr : Row × SSRow)
    (name : String) (attrs : ColumnConfig) (rest : List (String × ColumnConfig))
    (cid : Int) (f : Frac) (out : List UpdateCell)
    (hcur : it.currencyColumns.contains name = true)
    (hne : pyEq (Row.get pr.2.cells name) (Row.get pr.1 (attrs.sql.getD name)) = false)
    (hid : getColumnId it.sheetColumns name = .ok cid)
    (hf : pyFloat (Row.get pr.1 (attrs.sql.getD name)) = .ok f)
    (hout : pushCells it pr ((name, attrs) :: rest) = .ok out) :
    (∃ more, out = (⟨cid, false, some currencyFormat, .vstr (fmt2 f)⟩ : UpdateCell) :: more)
    ∧ (pyFloat (Value.vint 12)).map fmt2 = .ok "12.00"
    ∧ (pyFloat (Value.vfloat ⟨12, 1⟩)).map fmt2 = .ok "12.00"
    ∧ (pyFloat (Value.vstr "12.00")).map fmt2 = .ok "12.00"
    ∧ (∀ (j : Integration) (a : List Row) (b : List SSRow),
        mergeSmartsheetUpdates j a b = .error (.nameErr "pd")) := by
  refine ⟨?_, by decide, by decide, by decide, fun j a b => rfl⟩
  simp only [pushCells, hne, Bool.false_eq_true, if_false, hcur, if_true] at hout
  rw [hid, hf] at hout
  cases hrest : pushCells it pr rest with
  | error er => rw [hrest] at hout; exact Except.noConfusion hout
  | ok more =>
    rw [hrest] at hout
    have h2 : Except.ok ((⟨cid, false, some currencyFormat, .vstr (fmt2 f)⟩ : UpdateCell) :: more)
        = (Except.ok out : Except PyErr (List UpdateCell)) := hout
    injection h2 with h3
    exact ⟨more, h3.symm⟩

/-- C2 (witness): on the currency scenario's matched pair the queued
cell carries `"12.50"`, the canonical string of the relational `12.5`. -/
theorem C2_currency_write_witness :
    (∃ more, ([⟨2, false, some currencyFormat, .vstr "12.50"⟩] : List UpdateCell)
        = (⟨2, false, some currencyFormat, .vstr (fmt2 ⟨25, 2⟩)⟩ : UpdateCell) :: more)
    ∧ (pyFloat (Value.vint 12)).map fmt2 = .ok "12.00"
    ∧ (pyFloat (Value.vfloat ⟨12, 1⟩)).map fmt2 = .ok "12.00"
    ∧ (pyFloat (Value.vstr "12.00")).map fmt2 = .ok "12.00" := by
  have h := C2_currency_write itC2 prC2 "amt" ⟨"PUSH", none, some "CURRENCY"⟩ [] 2 ⟨25, 2⟩
    [⟨2, false, some currencyFormat, .vstr "12.50"⟩]
    (by decide) (by decide) (by decide) (by decide) (by decide)
  exact ⟨h.1, h.2.1, h.2.2.1, h.2.2.2.1⟩

/-- C10: in every generated UPDATE statement, single-quote doubling is
applied only to the changed pulled values — a recorded literal always
comes from a string remote value with its quotes doubled — while the
primary-key value placed in the WHERE clause is embedded verbatim
between single quotes (`str(pk)` is the string itself, unescaped), and
an empty-string pulled value is emitted as the literal NULL rather than
as an empty quoted string; the final conjunct exhibits all three on one
statement (`x'y` becomes `'x''y'`, the key `a'b` keeps its lone quote,
the empty `memo` becomes NULL). -/
theorem C10_literal_quoting :
    (∀ (it : Integration) (pk : Value) (changes : List (String × Option String)),
        sqlStatement it pk changes
          = "UPDATE [" ++ it.schemaName ++ "].[" ++ it.tableName ++ "]\nSET "
            ++ dropLast2 (setClauseFull changes)
            ++ "\nWHERE [" ++ it.primaryKeySql ++ "] = " ++ sqS ++ pyStr pk ++ sqS ++ "\n")
    ∧ (∀ s : String, pyStr (.vstr s) = s)
    ∧ (∀ c : String, setPiece (c, some "") = "[" ++ c ++ "] = NULL, ")
    ∧ (∀ (it : Integration) (pr : Row × SSRow) (out : List (String × Option String)),
        pullChanges it pr (pulledColumns it) = .ok out →
        ∀ c v, (c, some v) ∈ out →
          ∃ s, Row.get pr.2.cells c = .vstr s ∧ v = escapeQuotes s)
    ∧ sqlStatement itC10 (.vstr "a'b") [("note", some (escapeQuotes "x'y")), ("memo", some "")]
        = "UPDATE [dbo].[T]\nSET [note] = 'x''y', [memo] = NULL\nWHERE [id] = 'a'b'\n" := by
  refine ⟨fun it pk changes => rfl, fun s => rfl, ?_, ?_, by decide⟩
  · intro c
    simp [setPiece]
  · intro it pr out h c v hm
    rw [pullChanges_spec it pr (pulledColumns it) out h] at hm
    obtain ⟨e, he, heq⟩ := List.mem_map.mp hm
    rw [Prod.mk.injEq] at heq
    obtain ⟨h1, h2⟩ := heq
    subst h1
    cases hv : Row.get pr.2.cells e.1 with
    | vstr sv =>
      rw [hv] at h2
      simp only [pulledLiteral] at h2
      injection h2 with h3
      exact ⟨sv, rfl, h3.symm⟩
    | vnone =>
      rw [hv] at h2
      simp [pulledLiteral] at h2
    | vint n =>
      rw [hv] at h2
      simp [pulledLiteral] at h2
    | vfloat f =>
      rw [hv] at h2
      simp [pulledLiteral] at h2
    | vbool b =>
      rw [hv] at h2
      simp [pulledLiteral] at h2

/-- C10 (witness): on the quoting scenario's matched pair, the recorded
literal for the changed `note` column is the remote string with its
single quote doubled. -/
theorem C10_literal_quoting_witness :
    ∃ s, Row.get prC8.2.cells "note" = .vstr s ∧ "x''y" = escapeQuotes s :=
  C10_literal_quoting.2.2.2.1 itC10 prC8 [("note", some "x''y"), ("memo", some "")]
    (by decide) "note" "x''y" (by decide)
